import Mathlib

/-!
Verification development for the FBI crime data analysis dashboard
(`fbi_crime_data_analysis_app.py`).

The program loads ten CSV files into pandas DataFrames (`load_data`),
reshapes the two "sex" tables from wide to long form (`DataFrame.melt`),
and renders one of six views selected in a sidebar: four single
bar-chart views and two demographic views composed of two bar charts
and one donut chart.  Bar charts are prepared by
`df.sort_values(by=y, ascending=False).head(20)`.

The shallow embedding below models:
  * a DataFrame as a `Table` (column names plus rows of `Value` cells,
    where `Value.na` stands for pandas `NaN` / a missing cell);
  * `DataFrame.melt(var_name="Category", value_name="Count")` with no
    id-columns as `melt`: the columns are stacked in column order, each
    column contributing one `(name, cell)` row per original row;
  * `df.sort_values(by=y, ascending=False).head(20)` as a descending
    sort on the `y` column followed by `take 20`.  pandas
    `sort_values` computes `nargsort`, which masks the `NaN` rows out,
    runs the sort kernel on the rest, and appends the `NaN` indices
    last (`na_position="last"` default).  The kernel here is
    `List.mergeSort` as a determinization; the program's own kernel is
    numpy's default `kind='quicksort'` (introsort), whose tie order is
    implementation-defined and documented unstable, so no theorem
    below relies on the kernel's tie order: the proved sort properties
    (result length, rows drawn from the input, columns kept,
    descending key order, missing keys last) hold for any correct
    comparator sort kernel.  Non-numeric, non-missing sort keys make
    pandas raise and are outside the model: theorems about the sort
    carry a numeric-or-missing hypothesis on the key column;
  * the Streamlit render calls (`st.plotly_chart`/`st.dataframe` pairs
    emitted by `plot_bar_chart` and `plot_pie_chart`, `st.error`,
    `st.warning`) as emitted `Emit` values;
  * a missing file (`FileNotFoundError` from `pd.read_csv`) as a
    filesystem function `String → Option Table` returning `none`;
  * Python dict truthiness of `if data:` (both `None` and an empty
    dict are falsy).
-/

namespace CrimeDash

/-- A cell of a loaded table: a string, a number, or a missing value
(pandas `NaN`). -/
inductive Value
  | str (s : String)
  | num (n : Int)
  | na
  deriving DecidableEq

/-- A DataFrame: named columns and ordered rows of cells. -/
structure Table where
  cols : List String
  rows : List (List Value)
  deriving DecidableEq

/-- Numeric reading of a cell; non-numeric cells read as `0`.  Used
only to state sums of count columns. -/
def valNum : Value → Int
  | .num n => n
  | _ => 0

/-- The cell of row `r` in column index `j` (tables are rectangular in
pandas, so the default is never hit on well-formed input). -/
def keyOf (j : Nat) (r : List Value) : Value :=
  r.getD j .na

/-- Is the cell a number? -/
def isNum : Value → Bool
  | .num _ => true
  | _ => false

/-- Is the cell a number or a missing value?  (The sort-key columns
handled by the program; a string key would make pandas raise.) -/
def numOrNa : Value → Bool
  | .num _ => true
  | .na => true
  | _ => false

/-- Row order produced by `sort_values(by=y, ascending=False)` on the
key cells: numeric keys descending, missing keys after every numeric
key (`na_position="last"`), non-numeric keys grouped with the missing
ones (pandas raises on them; theorems exclude them by hypothesis). -/
def leDesc : Value → Value → Bool
  | .num x, .num y => decide (y ≤ x)
  | .num _, _ => true
  | _, .num _ => false
  | _, _ => true

/-- `df.melt(var_name="Category", value_name="Count")` with no
id-columns, on the rows: the columns are stacked in column order, each
column contributing one `[name, cell]` row per original row. -/
def meltRows : List String → List (List Value) → List (List Value)
  | [], _ => []
  | c :: cs, rows =>
      rows.map (fun r => [Value.str c, r.headD .na]) ++ meltRows cs (rows.map List.tail)

/-- `df.melt(var_name="Category", value_name="Count")` on a table. -/
def melt (t : Table) : Table :=
  ⟨["Category", "Count"], meltRows t.cols t.rows⟩

/-- Sum of the `Count` column (column index 1) of a melted table. -/
def countColSum (t : Table) : Int :=
  (t.rows.map (fun r => valNum (r.getD 1 .na))).sum

/-- Sum of all cells of a table under the numeric reading. -/
def cellTotal (t : Table) : Int :=
  (t.rows.map (fun r => (r.map valNum).sum)).sum

/-- Does `pat` start `s` (character lists)? -/
def charsStart : List Char → List Char → Bool
  | [], _ => true
  | _ :: _, [] => false
  | a :: as, b :: bs => a == b && charsStart as bs

/-- Does `pat` occur inside `s` (character lists)? -/
def charsContain (pat : List Char) : List Char → Bool
  | [] => pat.isEmpty
  | b :: bs => charsStart pat (b :: bs) || charsContain pat bs

/-- Python's `pat in s` substring test on strings. -/
def strContains (s pat : String) : Bool :=
  charsContain pat.toList s.toList

/-- An apostrophe, used by one of the source file names. -/
def apos : String := String.singleton (Char.ofNat 39)

/-- The hardcoded `files` mapping of `load_data`: logical table name to
CSV file name, in dict insertion order. -/
def files : List (String × String) :=
  [("offense_linked", "Offense Linked to Another Offense_09-30-2025.csv"),
   ("weapon_type", "Type of Weapon Involved by Offense_09-30-2025.csv"),
   ("victim_relationship", "Victim" ++ apos ++ "s Relationship to Offender_09-30-2025.csv"),
   ("location_type", "Location Type_09-30-2025.csv"),
   ("victim_ethnicity", "Victim ethnicity_09-30-2025.csv"),
   ("offender_ethnicity", "Offender ethnicity_09-30-2025.csv"),
   ("victim_race", "Victim race_09-30-2025.csv"),
   ("offender_race", "Offender race_09-30-2025.csv"),
   ("victim_sex", "Victim sex_09-30-2025.csv"),
   ("offender_sex", "Offender sex_09-30-2025.csv")]

/-- The ten logical table names, in `files` order. -/
def tenKeys : List String := files.map Prod.fst

/-- A loaded registry: the `data` dict of `load_data`. -/
abbrev Registry := List (String × Table)

/-- One visible element emitted by the dashboard: a rendered chart
(with the prepared table and title) or a Streamlit error/warning
message. -/
inductive ChartKind
  | rankedBar
  | proportion
  deriving DecidableEq

/-- See `ChartKind`. -/
inductive Emit
  | chart (kind : ChartKind) (t : Table) (title : String)
  | message (msg : String)
  deriving DecidableEq

/-- Is the emitted element a chart rendering? -/
def isChart : Emit → Bool
  | .chart _ _ _ => true
  | .message _ => false

/-- Is the emitted element an error/warning message? -/
def isMessage : Emit → Bool
  | .message _ => true
  | .chart _ _ _ => false

/-- The loop body of `load_data` over the remaining `files` entries,
given the filesystem `fs` (`none` = `FileNotFoundError`).  Returns the
file names passed to `read_csv` (in order), the `st.error` messages
emitted, and the resulting dict (`none` = the `return None` path).
Melting is applied when the logical name contains `"sex"`. -/
def load_loop (fs : String → Option Table) : List (String × String) →
    List String × List Emit × Option Registry
  | [] => ([], [], some [])
  | (key, fn) :: rest =>
      match fs fn with
      | none => ([fn], [.message ("❌ File not found: " ++ fn)], none)
      | some df =>
          let df2 := if strContains key "sex" then melt df else df
          match load_loop fs rest with
          | (att, es, r) => (fn :: att, es, r.map (fun l => (key, df2) :: l))

/-- `load_data`: the returned dict, or `none` for the `return None`
failure path. -/
def load_data (fs : String → Option Table) : Option Registry :=
  (load_loop fs files).2.2

/-- The rows of `df.sort_values(by=column j, ascending=False).head(n)`:
stable descending sort on column `j` with missing keys last, then the
first `n` rows. -/
def sort_desc_head (j n : Nat) (rows : List (List Value)) : List (List Value) :=
  (rows.mergeSort (fun r s => leDesc (keyOf j r) (keyOf j s))).take n

/-- The DataFrame that `plot_bar_chart` builds and renders:
`df.sort_values(by=y, ascending=False).head(20)`.  `none` models the
pandas `KeyError` when `y` is not a column. -/
def bar_chart_df (df : Table) (y : String) : Option Table :=
  (df.cols.findIdx? (fun c => c == y)).map (fun j => ⟨df.cols, sort_desc_head j 20 df.rows⟩)

/-- `plot_bar_chart(df, title, x, y)`: sorts and truncates, then
renders one ranked bar chart (with its data table) from the prepared
DataFrame.  `none` models the pandas exceptions when `y` (sort) or `x`
(plot) is not a column. -/
def plot_bar_chart (df : Table) (title x y : String) : Option Emit :=
  match bar_chart_df df y with
  | some df2 => if df.cols.contains x then some (.chart .rankedBar df2 title) else none
  | none => none

/-- `plot_pie_chart(df, title)`: renders the table unchanged as a
donut chart over columns `Category`/`Count`; `none` models the plotly
exception when either column is missing. -/
def plot_pie_chart (df : Table) (title : String) : Option Emit :=
  if df.cols.contains "Category" && df.cols.contains "Count" then
    some (.chart .proportion df title)
  else none

/-- The sidebar `dataset_options`: menu label to view key. -/
def dataset_options : List (String × String) :=
  [("Offense Linked to Another Offense", "offense_linked"),
   ("Type of Weapon Involved", "weapon_type"),
   ("Victim" ++ apos ++ "s Relationship to Offender", "victim_relationship"),
   ("Location Type", "location_type"),
   ("Victim Demographics", "victim_demographics"),
   ("Offender Demographics", "offender_demographics")]

/-- The six view keys reachable from the sidebar menu. -/
def sixKeys : List String := dataset_options.map Prod.snd

/-- The `if selected_key == ...` dispatch of the main dashboard body,
given a loaded registry: the chart elements emitted for the selected
view.  `none` models a raised exception (dict `KeyError` or a chart
helper failure); the final `some []` is the missing `else`: a key
outside the six falls through every branch and renders nothing. -/
def select_view (key : String) (data : Registry) : Option (List Emit) :=
  if key = "offense_linked" then
    match data.lookup "offense_linked" with
    | some t => (plot_bar_chart t "Top 20 Linked Offenses" "key" "value").map ([·])
    | none => none
  else if key = "weapon_type" then
    match data.lookup "weapon_type" with
    | some t => (plot_bar_chart t "Weapon Types in Offenses" "key" "value").map ([·])
    | none => none
  else if key = "victim_relationship" then
    match data.lookup "victim_relationship" with
    | some t => (plot_bar_chart t "Victim-Offender Relationships" "key" "value").map ([·])
    | none => none
  else if key = "location_type" then
    match data.lookup "location_type" with
    | some t => (plot_bar_chart t "Top 20 Crime Locations" "key" "value").map ([·])
    | none => none
  else if key = "victim_demographics" then
    match data.lookup "victim_race", data.lookup "victim_ethnicity", data.lookup "victim_sex" with
    | some tr, some te, some ts =>
        match plot_bar_chart tr "Victim Race Distribution" "key" "value",
              plot_bar_chart te "Victim Ethnicity Distribution" "key" "value",
              plot_pie_chart ts "Victim Sex Distribution" with
        | some e1, some e2, some e3 => some [e1, e2, e3]
        | _, _, _ => none
    | _, _, _ => none
  else if key = "offender_demographics" then
    match data.lookup "offender_race", data.lookup "offender_ethnicity",
          data.lookup "offender_sex" with
    | some tr, some te, some ts =>
        match plot_bar_chart tr "Offender Race Distribution" "key" "value",
              plot_bar_chart te "Offender Ethnicity Distribution" "key" "value",
              plot_pie_chart ts "Offender Sex Distribution" with
        | some e1, some e2, some e3 => some [e1, e2, e3]
        | _, _, _ => none
    | _, _, _ => none
  else some []

/-- The warning shown when `load_data` returned `None` (or an empty
dict: Python truthiness of `if data:`). -/
def noDataWarning : String :=
  "⚠️ Data could not be loaded. Please ensure all CSV files are in the same directory."

/-- The whole `if data: ... else: st.warning(...)` main body. -/
def main_view (key : String) (dataOpt : Option Registry) : Option (List Emit) :=
  match dataOpt with
  | some data => if data.isEmpty then some [.message noDataWarning] else select_view key data
  | none => some [.message noDataWarning]

/-- One navigation step threaded through the registry state: the main
body reads `data` and emits; no statement of the source assigns to
`data` or into any of its tables (`sort_values`/`head` return new
frames, `inplace` is never used), so the registry is returned as it
was. -/
def render_step (key : String) (st : Option Registry) :
    Option Registry × Option (List Emit) :=
  (st, main_view key st)

/-- Column check used to state registry well-formedness: the table
registered under `k` exists and has columns `c1` and `c2`. -/
def hasCols (data : Registry) (k c1 c2 : String) : Bool :=
  match data.lookup k with
  | some t => t.cols.contains c1 && t.cols.contains c2
  | none => false

/-- The eight registry keys rendered as bar charts. -/
def barKeys : List String :=
  ["offense_linked", "weapon_type", "victim_relationship", "location_type",
   "victim_race", "victim_ethnicity", "offender_race", "offender_ethnicity"]

/-- The two registry keys rendered as donut charts. -/
def sexKeys : List String := ["victim_sex", "offender_sex"]

/-- A minimal well-formed bar-chart table, for concrete witnesses. -/
def sampleBar : Table :=
  ⟨["key", "value"], [[.str "A", .num 5], [.str "B", .num 3]]⟩

/-- A minimal well-formed long-form sex table, for concrete
witnesses. -/
def sampleSex : Table :=
  ⟨["Category", "Count"], [[.str "Male", .num 600], [.str "Female", .num 400]]⟩

/-- A fully populated registry over the sample tables. -/
def sampleReg : Registry :=
  [("offense_linked", sampleBar), ("weapon_type", sampleBar),
   ("victim_relationship", sampleBar), ("location_type", sampleBar),
   ("victim_ethnicity", sampleBar), ("offender_ethnicity", sampleBar),
   ("victim_race", sampleBar), ("offender_race", sampleBar),
   ("victim_sex", sampleSex), ("offender_sex", sampleSex)]

/-- A filesystem on which every read succeeds with the same wide
table. -/
def sampleFs : String → Option Table :=
  fun _ => some ⟨["A", "B"], [[.num 1, .num 2]]⟩

/-- What `load_data` produces on `sampleFs`: the two sex tables are
melted, the rest stored as read. -/
def sampleLoaded : Registry :=
  [("offense_linked", ⟨["A", "B"], [[.num 1, .num 2]]⟩),
   ("weapon_type", ⟨["A", "B"], [[.num 1, .num 2]]⟩),
   ("victim_relationship", ⟨["A", "B"], [[.num 1, .num 2]]⟩),
   ("location_type", ⟨["A", "B"], [[.num 1, .num 2]]⟩),
   ("victim_ethnicity", ⟨["A", "B"], [[.num 1, .num 2]]⟩),
   ("offender_ethnicity", ⟨["A", "B"], [[.num 1, .num 2]]⟩),
   ("victim_race", ⟨["A", "B"], [[.num 1, .num 2]]⟩),
   ("offender_race", ⟨["A", "B"], [[.num 1, .num 2]]⟩),
   ("victim_sex", ⟨["Category", "Count"], [[.str "A", .num 1], [.str "B", .num 2]]⟩),
   ("offender_sex", ⟨["Category", "Count"], [[.str "A", .num 1], [.str "B", .num 2]]⟩)]

/-- An all-numeric bar-chart table with a tie, for concrete
witnesses. -/
def wNum : Table :=
  ⟨["key", "value"], [[.str "A", .num 3], [.str "B", .num 7], [.str "C", .num 7]]⟩

/-- A bar-chart table with a tie and a missing count, for concrete
witnesses. -/
def wMix : Table :=
  ⟨["key", "value"],
   [[.str "A", .num 3], [.str "B", .num 7], [.str "C", .num 7], [.str "D", .na]]⟩

/-- The file name of the third `files` entry. -/
def relFile : String := "Victim" ++ apos ++ "s Relationship to Offender_09-30-2025.csv"

/-- A filesystem on which exactly the third required file is
missing. -/
def sampleFs2 : String → Option Table :=
  fun fn => if fn == relFile then none else sampleFs fn

/-! ### Helper lemmas about `melt` -/

/-- Pointwise sums distribute over a mapped list sum. -/
theorem sum_map_add {α : Type} (l : List α) (f g : α → Int) :
    (l.map (fun x => f x + g x)).sum = (l.map f).sum + (l.map g).sum := by
  induction l with
  | nil => simp
  | cons a l ih => simp [ih]; ring

/-- `meltRows` always produces (number of columns) × (number of rows)
rows. -/
theorem meltRows_length (cs : List String) (rows : List (List Value)) :
    (meltRows cs rows).length = cs.length * rows.length := by
  induction cs generalizing rows with
  | nil => simp [meltRows]
  | cons c cs ih =>
    simp only [meltRows, List.length_append, List.length_map, ih, List.length_cons]
    ring

/-- On a single full row, `meltRows` pairs each column name with its
cell, in column order. -/
theorem meltRows_single (cs : List String) (vals : List Int) (h : vals.length = cs.length) :
    meltRows cs [vals.map Value.num] =
      (cs.zip vals).map (fun p => [Value.str p.1, Value.num p.2]) := by
  induction cs generalizing vals with
  | nil => simp [meltRows]
  | cons c cs ih =>
    cases vals with
    | nil => simp at h
    | cons v vs =>
      simp only [List.map_cons, meltRows, List.headD_cons, List.tail_cons,
        List.zip_cons_cons, List.cons_append, List.nil_append]
      exact congrArg _ (ih vs (by simpa using h))

/-- The `Count` column of melted rows sums to the total of all cells,
for rectangular input rows. -/
theorem meltRows_sum (cs : List String) (rows : List (List Value))
    (h : ∀ r ∈ rows, r.length = cs.length) :
    ((meltRows cs rows).map (fun r => valNum (r.getD 1 .na))).sum =
      (rows.map (fun r => (r.map valNum).sum)).sum := by
  induction cs generalizing rows with
  | nil =>
    simp only [meltRows, List.map_nil, List.sum_nil]
    refine (List.sum_eq_zero ?_).symm
    intro x hx
    obtain ⟨r, hr, rfl⟩ := List.mem_map.mp hx
    have : r = [] := List.length_eq_zero.mp (h r hr)
    simp [this]
  | cons c cs ih =>
    have h2 : ∀ r ∈ rows.map List.tail, r.length = cs.length := by
      intro r hr
      obtain ⟨s, hs, rfl⟩ := List.mem_map.mp hr
      have hl := h s hs
      cases s with
      | nil => simp at hl
      | cons a t => simpa using hl
    have hrw : rows.map (fun r => (r.map valNum).sum) =
        rows.map (fun r => valNum (r.headD .na) + ((r.tail).map valNum).sum) := by
      apply List.map_congr_left
      intro r hr
      cases r with
      | nil => have hl := h _ hr; simp at hl
      | cons a t => simp
    rw [hrw, sum_map_add]
    simp only [meltRows, List.map_append, List.sum_append, List.map_map]
    rw [ih (rows.map List.tail) h2]
    simp [Function.comp_def, List.getD]

/-! ### Theorems for the claims -/

/-- C1: for a wide sex-count table with columns `c_1..c_n` and a
single data row with values `v_1..v_n`, the loader's reshape (`melt`
with `var_name="Category"`, `value_name="Count"`) produces a
long-form table with exactly `n` rows, row `i` being
`(Category = c_i, Count = v_i)` in the original column order, and the
sum of the resulting `Count` column equals `v_1 + ... + v_n`. -/
theorem C1_reshape_single_row (cols : List String) (vals : List Int)
    (h : vals.length = cols.length) :
    (melt ⟨cols, [vals.map Value.num]⟩).cols = ["Category", "Count"] ∧
    (melt ⟨cols, [vals.map Value.num]⟩).rows =
      (cols.zip vals).map (fun p => [Value.str p.1, Value.num p.2]) ∧
    (melt ⟨cols, [vals.map Value.num]⟩).rows.length = cols.length ∧
    countColSum (melt ⟨cols, [vals.map Value.num]⟩) = vals.sum := by
  refine ⟨rfl, meltRows_single cols vals h, ?_, ?_⟩
  · show (meltRows cols [vals.map Value.num]).length = cols.length
    rw [meltRows_length]
    simp
  · show ((meltRows cols [vals.map Value.num]).map (fun r => valNum (r.getD 1 .na))).sum = _
    rw [meltRows_sum cols [vals.map Value.num] (by simpa using h)]
    simp [List.map_map, Function.comp_def, valNum]

/-- Witness for C1 at the spec's own example: the wide table
`{Male: 600, Female: 400, Unknown: 10}`. -/
theorem C1_reshape_single_row_witness :
    (melt ⟨["Male", "Female", "Unknown"], [[.num 600, .num 400, .num 10]]⟩).cols
      = ["Category", "Count"] ∧
    (melt ⟨["Male", "Female", "Unknown"], [[.num 600, .num 400, .num 10]]⟩).rows =
      ((["Male", "Female", "Unknown"].zip [(600 : Int), 400, 10]).map
        (fun p => [Value.str p.1, Value.num p.2])) ∧
    (melt ⟨["Male", "Female", "Unknown"], [[.num 600, .num 400, .num 10]]⟩).rows.length = 3 ∧
    countColSum (melt ⟨["Male", "Female", "Unknown"], [[.num 600, .num 400, .num 10]]⟩)
      = ([(600 : Int), 400, 10]).sum :=
  C1_reshape_single_row ["Male", "Female", "Unknown"] [600, 400, 10] (by decide)

/-- C10: the reshape never requires a single-row input: on any
rectangular `r × c` table it produces a two-column
`(Category, Count)` table with exactly `r * c` rows, and the sum of
the `Count` column equals the sum of all cells of the input. -/
theorem C10_melt_multirow (t : Table) (h : ∀ r ∈ t.rows, r.length = t.cols.length) :
    (melt t).cols = ["Category", "Count"] ∧
    (melt t).rows.length = t.rows.length * t.cols.length ∧
    countColSum (melt t) = cellTotal t := by
  refine ⟨rfl, ?_, ?_⟩
  · show (meltRows t.cols t.rows).length = _
    rw [meltRows_length]
    ring
  · show ((meltRows t.cols t.rows).map (fun r => valNum (r.getD 1 .na))).sum = _
    exact meltRows_sum t.cols t.rows h

/-- Witness for C10 on a 2 × 2 table. -/
theorem C10_melt_multirow_witness :
    (melt ⟨["M", "F"], [[.num 1, .num 2], [.num 3, .num 4]]⟩).cols = ["Category", "Count"] ∧
    (melt ⟨["M", "F"], [[.num 1, .num 2], [.num 3, .num 4]]⟩).rows.length = 2 * 2 ∧
    countColSum (melt ⟨["M", "F"], [[.num 1, .num 2], [.num 3, .num 4]]⟩)
      = cellTotal ⟨["M", "F"], [[.num 1, .num 2], [.num 3, .num 4]]⟩ :=
  C10_melt_multirow ⟨["M", "F"], [[.num 1, .num 2], [.num 3, .num 4]]⟩ (by decide)

/-! ### Helper lemmas about the descending sort -/

/-- `leDesc` is transitive. -/
theorem leDesc_trans : ∀ a b c : Value, leDesc a b → leDesc b c → leDesc a c := by
  intro a b c
  cases a <;> cases b <;> cases c <;> simp [leDesc]
  omega

/-- `leDesc` is total. -/
theorem leDesc_total : ∀ a b : Value, leDesc a b || leDesc b a := by
  intro a b
  cases a <;> cases b <;> simp [leDesc]
  omega

/-- Transitivity of the row order used by the sort on column `j`. -/
theorem rowTrans (j : Nat) (a b c : List Value)
    (h1 : leDesc (keyOf j a) (keyOf j b) = true)
    (h2 : leDesc (keyOf j b) (keyOf j c) = true) :
    leDesc (keyOf j a) (keyOf j c) = true :=
  leDesc_trans _ _ _ h1 h2

/-- Totality of the row order used by the sort on column `j`. -/
theorem rowTotal (j : Nat) (a b : List Value) :
    (leDesc (keyOf j a) (keyOf j b) || leDesc (keyOf j b) (keyOf j a)) = true :=
  leDesc_total _ _

/-- C2: the ranked-bar preparation (sort by the count column
descending, then `head(20)`) keeps the column list, returns exactly
`min m 20` of the original rows, and adjacent retained rows have
weakly decreasing counts. -/
theorem C2_ranked_bar (t : Table) (y : String) (j : Nat)
    (hj : t.cols.findIdx? (fun c => c == y) = some j)
    (hn : ∀ r ∈ t.rows, isNum (keyOf j r)) :
    ∃ t', bar_chart_df t y = some t' ∧
      t'.cols = t.cols ∧
      t'.rows.length = min t.rows.length 20 ∧
      (∀ r ∈ t'.rows, r ∈ t.rows) ∧
      t'.rows.Chain' (fun r s => valNum (keyOf j s) ≤ valNum (keyOf j r)) := by
  refine ⟨⟨t.cols, sort_desc_head j 20 t.rows⟩, by rw [bar_chart_df, hj]; rfl, rfl, ?_, ?_, ?_⟩
  · show (List.take 20 _).length = _
    rw [List.length_take, List.length_mergeSort, Nat.min_comm]
  · intro r hr
    have : r ∈ t.rows.mergeSort (fun r s => leDesc (keyOf j r) (keyOf j s)) :=
      (List.take_sublist 20 _).subset hr
    exact List.mem_mergeSort.mp this
  · have hsorted :
        (t.rows.mergeSort (fun r s => leDesc (keyOf j r) (keyOf j s))).Pairwise
          (fun r s => leDesc (keyOf j r) (keyOf j s) = true) :=
      List.sorted_mergeSort (rowTrans j) (rowTotal j) t.rows
    have hp : (sort_desc_head j 20 t.rows).Pairwise
        (fun r s => leDesc (keyOf j r) (keyOf j s) = true) :=
      List.Pairwise.sublist (List.take_sublist 20 _) hsorted
    refine List.Pairwise.chain' (hp.imp_of_mem ?_)
    intro r s hr hs hle
    have hrn : isNum (keyOf j r) := by
      have : r ∈ t.rows := List.mem_mergeSort.mp ((List.take_sublist 20 _).subset hr)
      exact hn r this
    have hsn : isNum (keyOf j s) := by
      have : s ∈ t.rows := List.mem_mergeSort.mp ((List.take_sublist 20 _).subset hs)
      exact hn s this
    cases hkr : keyOf j r with
    | num a =>
      cases hks : keyOf j s with
      | num b =>
        rw [hkr, hks] at hle
        simpa [valNum] using (by simpa [leDesc] using hle : b ≤ a)
      | str v => rw [hks] at hsn; simp [isNum] at hsn
      | na => rw [hks] at hsn; simp [isNum] at hsn
    | str v => rw [hkr] at hrn; simp [isNum] at hrn
    | na => rw [hkr] at hrn; simp [isNum] at hrn

/-- Witness for C2 on a concrete three-row table with a tie. -/
theorem C2_ranked_bar_witness :
    ∃ t', bar_chart_df wNum "value" = some t' ∧
      t'.cols = wNum.cols ∧
      t'.rows.length = min wNum.rows.length 20 ∧
      (∀ r ∈ t'.rows, r ∈ wNum.rows) ∧
      t'.rows.Chain' (fun r s => valNum (keyOf 1 s) ≤ valNum (keyOf 1 r)) :=
  C2_ranked_bar wNum "value" 1 (by decide) (by decide)

/-- C8: in the ranked-bar output, a row with a missing count never
precedes a row with a numeric count (missing keys sort last, the
`na_position="last"` default of `sort_values`). -/
theorem C8_missing_last (t : Table) (y : String) (j : Nat)
    (hj : t.cols.findIdx? (fun c => c == y) = some j)
    (hn : ∀ r ∈ t.rows, numOrNa (keyOf j r)) :
    ∃ t', bar_chart_df t y = some t' ∧
      t'.rows.Pairwise (fun r s => keyOf j r = .na → keyOf j s = .na) := by
  refine ⟨⟨t.cols, sort_desc_head j 20 t.rows⟩, by rw [bar_chart_df, hj]; rfl, ?_⟩
  have hsorted :
      (t.rows.mergeSort (fun r s => leDesc (keyOf j r) (keyOf j s))).Pairwise
        (fun r s => leDesc (keyOf j r) (keyOf j s) = true) :=
    List.sorted_mergeSort (rowTrans j) (rowTotal j) t.rows
  have hp : (sort_desc_head j 20 t.rows).Pairwise
      (fun r s => leDesc (keyOf j r) (keyOf j s) = true) :=
    List.Pairwise.sublist (List.take_sublist 20 _) hsorted
  refine hp.imp_of_mem ?_
  intro r s hr hs hle hna
  have hsn : numOrNa (keyOf j s) := by
    have : s ∈ t.rows := List.mem_mergeSort.mp ((List.take_sublist 20 _).subset hs)
    exact hn s this
  rw [hna] at hle
  cases hks : keyOf j s with
  | num b => rw [hks] at hle; simp [leDesc] at hle
  | str w => rw [hks] at hsn; simp [numOrNa] at hsn
  | na => rfl

/-- Witness for C8 on a table with one missing count. -/
theorem C8_missing_last_witness :
    ∃ t', bar_chart_df wMix "value" = some t' ∧
      t'.rows.Pairwise (fun r s => keyOf 1 r = .na → keyOf 1 s = .na) :=
  C8_missing_last wMix "value" 1 (by decide) (by decide)

/-! ### Loader theorems -/

/-- On the success path, the loader stores one table per input entry,
under the logical names in order. -/
theorem load_loop_keys (fs : String → Option Table) :
    ∀ (L : List (String × String)) (r : Registry),
      (load_loop fs L).2.2 = some r → r.map Prod.fst = L.map Prod.fst := by
  intro L
  induction L with
  | nil =>
    intro r h
    simp only [load_loop] at h
    simp [← Option.some_inj.mp h]
  | cons e rest ih =>
    intro r h
    obtain ⟨key, fn⟩ := e
    simp only [load_loop] at h
    cases hfs : fs fn with
    | none => rw [hfs] at h; simp at h
    | some df =>
      rw [hfs] at h
      rcases hlr : load_loop fs rest with ⟨att, es, rr⟩
      rw [hlr] at h
      cases rr with
      | none => simp at h
      | some l =>
        have h' : (key, if strContains key "sex" then melt df else df) :: l = r := by
          simpa using h
        subst h'
        have hkeys : l.map Prod.fst = rest.map Prod.fst := by
          apply ih
          rw [hlr]
        simp [hkeys]

/-- C3: the loader is all-or-nothing: whenever `load_data` returns a
registry, that registry has exactly the ten fixed logical names (in
`files` order); the only other outcome is the total-failure `None`
return of the missing-file handler, so a partial registry is never
exposed. -/
theorem C3_all_or_nothing (fs : String → Option Table) (r : Registry)
    (h : load_data fs = some r) :
    r.map Prod.fst = tenKeys :=
  load_loop_keys fs files r h

/-- Witness for C3 on a filesystem where every read succeeds. -/
theorem C3_all_or_nothing_witness :
    sampleLoaded.map Prod.fst = tenKeys :=
  C3_all_or_nothing sampleFs sampleLoaded (by decide)

/-- The loading loop aborts at the first missing file: it reads only
the files up to and including the failing one, emits one `st.error`
message naming that file, and returns `None`. -/
theorem load_loop_stops (fs : String → Option Table) (k fn : String)
    (post : List (String × String)) (hmiss : fs fn = none) :
    ∀ (pre : List (String × String)), (∀ p ∈ pre, (fs p.2).isSome) →
      load_loop fs (pre ++ (k, fn) :: post) =
        (pre.map Prod.snd ++ [fn], [.message ("❌ File not found: " ++ fn)], none) := by
  intro pre
  induction pre with
  | nil =>
    intro _
    simp [load_loop, hmiss]
  | cons e pre ih =>
    intro hpre
    obtain ⟨key2, fn2⟩ := e
    have h2 : (fs fn2).isSome := hpre (key2, fn2) (by simp)
    cases hfs : fs fn2 with
    | none => rw [hfs] at h2; simp at h2
    | some df =>
      have hrec := ih (fun p hp => hpre p (by simp [hp]))
      simp [load_loop, hfs, hrec]

/-- C7: if some required file is missing (and the ones before it are
readable), the whole load signals failure carrying the identity of the
missing file — one error message naming it — and does not attempt any
of the remaining files. -/
theorem C7_fail_fast (fs : String → Option Table) (pre : List (String × String))
    (k fn : String) (post : List (String × String))
    (hsplit : files = pre ++ (k, fn) :: post)
    (hpre : ∀ p ∈ pre, (fs p.2).isSome)
    (hmiss : fs fn = none) :
    load_loop fs files =
      (pre.map Prod.snd ++ [fn], [.message ("❌ File not found: " ++ fn)], none) ∧
    load_data fs = none := by
  have h := load_loop_stops fs k fn post hmiss pre hpre
  constructor
  · rw [hsplit]
    exact h
  · show (load_loop fs files).2.2 = none
    rw [hsplit, h]

/-- Witness for C7: the third required file is missing. -/
theorem C7_fail_fast_witness :
    load_loop sampleFs2 files =
      (["Offense Linked to Another Offense_09-30-2025.csv",
        "Type of Weapon Involved by Offense_09-30-2025.csv", relFile],
       [.message ("❌ File not found: " ++ relFile)], none) ∧
    load_data sampleFs2 = none :=
  C7_fail_fast sampleFs2
    [("offense_linked", "Offense Linked to Another Offense_09-30-2025.csv"),
     ("weapon_type", "Type of Weapon Involved by Offense_09-30-2025.csv")]
    "victim_relationship" relFile
    [("location_type", "Location Type_09-30-2025.csv"),
     ("victim_ethnicity", "Victim ethnicity_09-30-2025.csv"),
     ("offender_ethnicity", "Offender ethnicity_09-30-2025.csv"),
     ("victim_race", "Victim race_09-30-2025.csv"),
     ("offender_race", "Offender race_09-30-2025.csv"),
     ("victim_sex", "Victim sex_09-30-2025.csv"),
     ("offender_sex", "Offender sex_09-30-2025.csv")]
    rfl (by decide) (by decide)

/-! ### Dispatch theorems -/

/-- Unpack a successful `hasCols` check. -/
theorem hasCols_lookup (data : Registry) (k c1 c2 : String)
    (h : hasCols data k c1 c2 = true) :
    ∃ t, data.lookup k = some t ∧ t.cols.contains c1 = true ∧ t.cols.contains c2 = true := by
  simp only [hasCols] at h
  cases hl : data.lookup k with
  | none => rw [hl] at h; simp at h
  | some t =>
    rw [hl] at h
    simp only [Bool.and_eq_true] at h
    exact ⟨t, rfl, h.1, h.2⟩

/-- `plot_bar_chart` succeeds and emits one ranked bar chart when the
`key` and `value` columns exist. -/
theorem plot_bar_chart_ok (t : Table) (title : String)
    (hx : t.cols.contains "key" = true) (hy : t.cols.contains "value" = true) :
    ∃ df2, bar_chart_df t "value" = some df2 ∧
      plot_bar_chart t title "key" "value" = some (.chart .rankedBar df2 title) := by
  obtain ⟨b, hb, hbeq⟩ := List.contains_iff_exists_mem_beq.mp hy
  have hb' : "value" = b := eq_of_beq hbeq
  subst hb'
  have hfind : t.cols.findIdx? (fun c => c == "value")
      = some (t.cols.findIdx (fun c => c == "value")) :=
    List.findIdx?_eq_some_of_exists ⟨"value", hb, beq_self_eq_true _⟩
  exact ⟨⟨t.cols, sort_desc_head (t.cols.findIdx (fun c => c == "value")) 20 t.rows⟩,
    by rw [bar_chart_df, hfind]; rfl,
    by
      have mx : "key" ∈ t.cols := by simpa using hx
      simp [plot_bar_chart, bar_chart_df, hfind, mx]⟩

/-- `plot_pie_chart` succeeds and emits one proportion chart when the
`Category` and `Count` columns exist. -/
theorem plot_pie_chart_ok (t : Table) (title : String)
    (h1 : t.cols.contains "Category" = true) (h2 : t.cols.contains "Count" = true) :
    plot_pie_chart t title = some (.chart .proportion t title) := by
  have m1 : "Category" ∈ t.cols := by simpa using h1
  have m2 : "Count" ∈ t.cols := by simpa using h2
  simp [plot_pie_chart, m1, m2]

/-- C4 (amended): on a registry whose tables carry the expected
columns, the dispatch produces a non-empty, chart-only rendering for
each of the six menu view keys; for every key outside the six it
renders nothing at all (`some []`): the `if/elif` chain has no `else`,
so an unknown key falls through silently instead of raising an
explicit UnknownView error. -/
theorem C4_view_dispatch (data : Registry)
    (hb : ∀ k ∈ barKeys, hasCols data k "key" "value" = true)
    (hs : ∀ k ∈ sexKeys, hasCols data k "Category" "Count" = true) :
    (∀ k ∈ sixKeys, ∃ es, select_view k data = some es ∧ es ≠ [] ∧
      ∀ e ∈ es, isChart e = true) ∧
    (∀ k, k ∉ sixKeys → select_view k data = some []) := by
  constructor
  · intro k hk
    simp only [sixKeys, dataset_options, List.map_cons, List.map_nil, List.mem_cons,
      List.not_mem_nil, or_false] at hk
    rcases hk with rfl | rfl | rfl | rfl | rfl | rfl
    · obtain ⟨t, hl, h1, h2⟩ := hasCols_lookup data _ _ _ (hb "offense_linked" (by simp [barKeys]))
      obtain ⟨df2, -, hpb⟩ := plot_bar_chart_ok t "Top 20 Linked Offenses" h1 h2
      exact ⟨[.chart .rankedBar df2 "Top 20 Linked Offenses"],
        by simp [select_view, hl, hpb], by simp, by simp [isChart]⟩
    · obtain ⟨t, hl, h1, h2⟩ := hasCols_lookup data _ _ _ (hb "weapon_type" (by simp [barKeys]))
      obtain ⟨df2, -, hpb⟩ := plot_bar_chart_ok t "Weapon Types in Offenses" h1 h2
      exact ⟨[.chart .rankedBar df2 "Weapon Types in Offenses"],
        by simp [select_view, hl, hpb], by simp, by simp [isChart]⟩
    · obtain ⟨t, hl, h1, h2⟩ :=
        hasCols_lookup data _ _ _ (hb "victim_relationship" (by simp [barKeys]))
      obtain ⟨df2, -, hpb⟩ := plot_bar_chart_ok t "Victim-Offender Relationships" h1 h2
      exact ⟨[.chart .rankedBar df2 "Victim-Offender Relationships"],
        by simp [select_view, hl, hpb], by simp, by simp [isChart]⟩
    · obtain ⟨t, hl, h1, h2⟩ := hasCols_lookup data _ _ _ (hb "location_type" (by simp [barKeys]))
      obtain ⟨df2, -, hpb⟩ := plot_bar_chart_ok t "Top 20 Crime Locations" h1 h2
      exact ⟨[.chart .rankedBar df2 "Top 20 Crime Locations"],
        by simp [select_view, hl, hpb], by simp, by simp [isChart]⟩
    · obtain ⟨tr, hlr, hr1, hr2⟩ :=
        hasCols_lookup data _ _ _ (hb "victim_race" (by simp [barKeys]))
      obtain ⟨te, hle, he1, he2⟩ :=
        hasCols_lookup data _ _ _ (hb "victim_ethnicity" (by simp [barKeys]))
      obtain ⟨ts, hls, hs1, hs2⟩ :=
        hasCols_lookup data _ _ _ (hs "victim_sex" (by simp [sexKeys]))
      obtain ⟨br, -, hpr⟩ := plot_bar_chart_ok tr "Victim Race Distribution" hr1 hr2
      obtain ⟨be, -, hpe⟩ := plot_bar_chart_ok te "Victim Ethnicity Distribution" he1 he2
      have hps := plot_pie_chart_ok ts "Victim Sex Distribution" hs1 hs2
      exact ⟨[.chart .rankedBar br "Victim Race Distribution",
              .chart .rankedBar be "Victim Ethnicity Distribution",
              .chart .proportion ts "Victim Sex Distribution"],
        by simp [select_view, hlr, hle, hls, hpr, hpe, hps], by simp, by simp [isChart]⟩
    · obtain ⟨tr, hlr, hr1, hr2⟩ :=
        hasCols_lookup data _ _ _ (hb "offender_race" (by simp [barKeys]))
      obtain ⟨te, hle, he1, he2⟩ :=
        hasCols_lookup data _ _ _ (hb "offender_ethnicity" (by simp [barKeys]))
      obtain ⟨ts, hls, hs1, hs2⟩ :=
        hasCols_lookup data _ _ _ (hs "offender_sex" (by simp [sexKeys]))
      obtain ⟨br, -, hpr⟩ := plot_bar_chart_ok tr "Offender Race Distribution" hr1 hr2
      obtain ⟨be, -, hpe⟩ := plot_bar_chart_ok te "Offender Ethnicity Distribution" he1 he2
      have hps := plot_pie_chart_ok ts "Offender Sex Distribution" hs1 hs2
      exact ⟨[.chart .rankedBar br "Offender Race Distribution",
              .chart .rankedBar be "Offender Ethnicity Distribution",
              .chart .proportion ts "Offender Sex Distribution"],
        by simp [select_view, hlr, hle, hls, hpr, hpe, hps], by simp, by simp [isChart]⟩
  · intro k hk
    simp only [sixKeys, dataset_options, List.map_cons, List.map_nil, List.mem_cons,
      List.not_mem_nil, or_false, not_or] at hk
    obtain ⟨n1, n2, n3, n4, n5, n6⟩ := hk
    simp [select_view, n1, n2, n3, n4, n5, n6]

/-- Witness for the amended C4 on the sample registry. -/
theorem C4_view_dispatch_witness :
    (∀ k ∈ sixKeys, ∃ es, select_view k sampleReg = some es ∧ es ≠ [] ∧
      ∀ e ∈ es, isChart e = true) ∧
    (∀ k, k ∉ sixKeys → select_view k sampleReg = some []) :=
  C4_view_dispatch sampleReg (by decide) (by decide)

/-- Counterexample refuting C4 as stated: at the unknown view key
"bogus", with a fully populated registry, the dispatch renders
nothing at all — `some []`, no chart and in particular no error
message — instead of failing with an explicit UnknownView error. -/
theorem C4_counterexample :
    select_view "bogus" sampleReg = some [] ∧
    ¬ ∃ es, select_view "bogus" sampleReg = some es ∧ ∃ e ∈ es, isMessage e = true := by
  have h : select_view "bogus" sampleReg = some [] := by decide
  refine ⟨h, ?_⟩
  rintro ⟨es, hes, e, he, -⟩
  rw [h] at hes
  obtain rfl : ([] : List Emit) = es := Option.some_inj.mp hes
  simp at he

/-- C6: each demographic view key renders exactly three sub-tables
drawn from the registry: the race table as a ranked bar chart, the
ethnicity table as a ranked bar chart, and the sex table as a
proportion (donut) chart. -/
theorem C6_demographics (data : Registry)
    (hvr : hasCols data "victim_race" "key" "value" = true)
    (hve : hasCols data "victim_ethnicity" "key" "value" = true)
    (hvs : hasCols data "victim_sex" "Category" "Count" = true)
    (hor : hasCols data "offender_race" "key" "value" = true)
    (hoe : hasCols data "offender_ethnicity" "key" "value" = true)
    (hos : hasCols data "offender_sex" "Category" "Count" = true) :
    (∃ tr te ts br be,
      data.lookup "victim_race" = some tr ∧
      data.lookup "victim_ethnicity" = some te ∧
      data.lookup "victim_sex" = some ts ∧
      bar_chart_df tr "value" = some br ∧
      bar_chart_df te "value" = some be ∧
      select_view "victim_demographics" data =
        some [.chart .rankedBar br "Victim Race Distribution",
              .chart .rankedBar be "Victim Ethnicity Distribution",
              .chart .proportion ts "Victim Sex Distribution"]) ∧
    (∃ tr te ts br be,
      data.lookup "offender_race" = some tr ∧
      data.lookup "offender_ethnicity" = some te ∧
      data.lookup "offender_sex" = some ts ∧
      bar_chart_df tr "value" = some br ∧
      bar_chart_df te "value" = some be ∧
      select_view "offender_demographics" data =
        some [.chart .rankedBar br "Offender Race Distribution",
              .chart .rankedBar be "Offender Ethnicity Distribution",
              .chart .proportion ts "Offender Sex Distribution"]) := by
  constructor
  · obtain ⟨tr, hlr, hr1, hr2⟩ := hasCols_lookup data _ _ _ hvr
    obtain ⟨te, hle, he1, he2⟩ := hasCols_lookup data _ _ _ hve
    obtain ⟨ts, hls, hs1, hs2⟩ := hasCols_lookup data _ _ _ hvs
    obtain ⟨br, hbr, hpr⟩ := plot_bar_chart_ok tr "Victim Race Distribution" hr1 hr2
    obtain ⟨be, hbe, hpe⟩ := plot_bar_chart_ok te "Victim Ethnicity Distribution" he1 he2
    have hps := plot_pie_chart_ok ts "Victim Sex Distribution" hs1 hs2
    exact ⟨tr, te, ts, br, be, hlr, hle, hls, hbr, hbe,
      by simp [select_view, hlr, hle, hls, hpr, hpe, hps]⟩
  · obtain ⟨tr, hlr, hr1, hr2⟩ := hasCols_lookup data _ _ _ hor
    obtain ⟨te, hle, he1, he2⟩ := hasCols_lookup data _ _ _ hoe
    obtain ⟨ts, hls, hs1, hs2⟩ := hasCols_lookup data _ _ _ hos
    obtain ⟨br, hbr, hpr⟩ := plot_bar_chart_ok tr "Offender Race Distribution" hr1 hr2
    obtain ⟨be, hbe, hpe⟩ := plot_bar_chart_ok te "Offender Ethnicity Distribution" he1 he2
    have hps := plot_pie_chart_ok ts "Offender Sex Distribution" hs1 hs2
    exact ⟨tr, te, ts, br, be, hlr, hle, hls, hbr, hbe,
      by simp [select_view, hlr, hle, hls, hpr, hpe, hps]⟩

/-- Witness for C6 on the sample registry. -/
theorem C6_demographics_witness :
    (∃ tr te ts br be,
      sampleReg.lookup "victim_race" = some tr ∧
      sampleReg.lookup "victim_ethnicity" = some te ∧
      sampleReg.lookup "victim_sex" = some ts ∧
      bar_chart_df tr "value" = some br ∧
      bar_chart_df te "value" = some be ∧
      select_view "victim_demographics" sampleReg =
        some [.chart .rankedBar br "Victim Race Distribution",
              .chart .rankedBar be "Victim Ethnicity Distribution",
              .chart .proportion ts "Victim Sex Distribution"]) ∧
    (∃ tr te ts br be,
      sampleReg.lookup "offender_race" = some tr ∧
      sampleReg.lookup "offender_ethnicity" = some te ∧
      sampleReg.lookup "offender_sex" = some ts ∧
      bar_chart_df tr "value" = some br ∧
      bar_chart_df te "value" = some be ∧
      select_view "offender_demographics" sampleReg =
        some [.chart .rankedBar br "Offender Race Distribution",
              .chart .rankedBar be "Offender Ethnicity Distribution",
              .chart .proportion ts "Offender Sex Distribution"]) :=
  C6_demographics sampleReg (by decide) (by decide) (by decide)
    (by decide) (by decide) (by decide)

/-- C9: rendering never mutates the loaded data: a navigation step
threaded through the registry state returns the registry exactly as it
was, table for table, row for row (the source never assigns into
`data`; `sort_values`/`head`/`highlight_max` return new objects). -/
theorem C9_no_mutation (key : String) (st : Option Registry) :
    (render_step key st).1 = st :=
  rfl

end CrimeDash
